import Mathlib

/-!
# GlucoGuide: a shallow embedding of `src/app.py`

This file embeds the validation, alerting, prompt-construction and
persistence pipeline of the GlucoGuide application and proves the
specification claims about it.

Blood-sugar values (Python floats) are modelled as rationals; SQL `date`
columns (TEXT timestamps whose lexicographic order matches chronological
order) are modelled as natural-number timestamps; the two SQLite tables
are modelled as lists of records in insertion order, with the synthetic
row id given by list position.
-/

namespace GlucoGuide

/-- A row of the `blood_sugar_data` table (`src/app.py` lines 14-23). -/
structure Reading where
  user_id : String
  date : Nat
  fasting_sugar : ℚ
  pre_meal_sugar : ℚ
  post_meal_sugar : ℚ
  deriving DecidableEq, Repr

/-- A row of the `meal_plans` table (`src/app.py` lines 25-33). -/
structure MealPlan where
  user_id : String
  date : Nat
  meal_plan : String
  is_favorite : Bool
  deriving DecidableEq, Repr

/-- The database: both tables, rows in insertion order. -/
structure Store where
  readings : List Reading
  plans : List MealPlan
  deriving DecidableEq, Repr

def emptyStore : Store := ⟨[], []⟩

/-! ## Input validator (`validate_inputs`, lines 47-62) -/

def fastingErrMsg : String := "Fasting sugar level must be between 50 and 500 mg/dL."
def preMealErrMsg : String := "Pre-meal sugar level must be between 70 and 500 mg/dL."
def postMealErrMsg : String := "Post-meal sugar level must be between 70 and 500 mg/dL."
def dietaryErrMsg : String := "Dietary preferences cannot be empty."

/-- Function `validate_inputs(fasting_sugar, pre_meal_sugar, post_meal_sugar,
dietary_preferences)`: collects one message per violated rule, in order,
with no short-circuit. -/
def validate_inputs (fasting_sugar pre_meal_sugar post_meal_sugar : ℚ)
    (dietary_preferences : String) : List String :=
  (if 50 ≤ fasting_sugar ∧ fasting_sugar ≤ 500 then [] else [fastingErrMsg]) ++
  (if 70 ≤ pre_meal_sugar ∧ pre_meal_sugar ≤ 500 then [] else [preMealErrMsg]) ++
  (if 70 ≤ post_meal_sugar ∧ post_meal_sugar ≤ 500 then [] else [postMealErrMsg]) ++
  (if dietary_preferences = "" then [dietaryErrMsg] else [])

/-! ## Alert evaluator (`generate_health_alerts`, lines 64-72) -/

def fastingAlertMsg : String :=
  "High fasting sugar detected (>126 mg/dL). Consider consulting a doctor."
def preMealAlertMsg : String :=
  "High pre-meal sugar detected (>130 mg/dL). Consider consulting a doctor."
def postMealAlertMsg : String :=
  "High post-meal sugar detected (>180 mg/dL). Consider consulting a doctor."

/-- Function `generate_health_alerts(fasting_sugar, pre_meal_sugar, post_meal_sugar)`. -/
def generate_health_alerts (fasting_sugar pre_meal_sugar post_meal_sugar : ℚ) :
    List String :=
  (if 126 < fasting_sugar then [fastingAlertMsg] else []) ++
  (if 130 < pre_meal_sugar then [preMealAlertMsg] else []) ++
  (if 180 < post_meal_sugar then [postMealAlertMsg] else [])

/-! ## Prompt builder (`generate_meal_plan`, lines 76-94: the request) -/

/-- The chat-completion request assembled by `generate_meal_plan`:
system role, user prompt, model name, temperature and token limit. -/
structure GenerationRequest where
  system_role : String
  user_text : String
  model_hint : String
  temperature : ℚ
  max_tokens : Nat
  deriving DecidableEq, Repr

/-- The f-string prompt of lines 76-84, with the four values interpolated. -/
def build_prompt (fasting_sugar pre_meal_sugar post_meal_sugar : ℚ)
    (dietary_preferences : String) : String :=
  "\n        Generate a meal plan for a diabetic patient with:\n        - Fasting sugar: " ++
  toString fasting_sugar ++ " mg/dL\n        - Pre-meal sugar: " ++
  toString pre_meal_sugar ++ " mg/dL\n        - Post-meal sugar: " ++
  toString post_meal_sugar ++ " mg/dL\n        - Dietary preferences: " ++
  dietary_preferences ++
  "\n        Include low glycemic index options if sugar levels are high.\n" ++
  "        Provide detailed nutritional information and portion sizes.\n        "

/-- The full request payload of the `client.chat.completions.create` call
(lines 86-94): fixed system role, the interpolated prompt, fixed model,
temperature 0.3 and `max_tokens` 1500. -/
def build (fasting_sugar pre_meal_sugar post_meal_sugar : ℚ)
    (dietary_preferences : String) : GenerationRequest :=
  { system_role := "Expert dietitian specializing in diabetes management"
    user_text := build_prompt fasting_sugar pre_meal_sugar post_meal_sugar dietary_preferences
    model_hint := "llama3-8b-8192"
    temperature := 3 / 10
    max_tokens := 1500 }

/-! ## Plan generator client (`generate_meal_plan`, lines 74-98) -/

/-- The outcome of the network call: the provider's top-choice text, or an
exception carrying the provider's message. -/
abbrev ProviderResponse := Except String String

/-- Function `generate_meal_plan`: on success return the text; on any exception,
display `"Error generating meal plan: " + str(e)` via `st.error` and
return `None`.  Result: (returned value, displayed error messages). -/
def generate_meal_plan (fasting_sugar pre_meal_sugar post_meal_sugar : ℚ)
    (dietary_preferences : String) (response : ProviderResponse) :
    Option String × List String :=
  let _request := build fasting_sugar pre_meal_sugar post_meal_sugar dietary_preferences
  match response with
  | Except.ok text => (some text, [])
  | Except.error e => (none, ["Error generating meal plan: " ++ e])

/-! ## Record store (lines 100-133, 165-170, 234-241, 253-256) -/

/-- Function `save_blood_sugar_data(user_id, ...)`: INSERT into `blood_sugar_data`
with the current timestamp `t`. -/
def save_blood_sugar_data (user_id : String) (t : Nat)
    (fasting_sugar pre_meal_sugar post_meal_sugar : ℚ) (s : Store) : Store :=
  { s with readings :=
      s.readings ++ [⟨user_id, t, fasting_sugar, pre_meal_sugar, post_meal_sugar⟩] }

/-- Function `save_meal_plan(user_id, meal_plan, is_favorite=False)`: INSERT into
`meal_plans` with the current timestamp `t`. -/
def save_meal_plan (user_id : String) (t : Nat) (meal_plan : String)
    (is_favorite : Bool) (s : Store) : Store :=
  { s with plans := s.plans ++ [⟨user_id, t, meal_plan, is_favorite⟩] }

/-- Subquery `SELECT MAX(date) FROM meal_plans WHERE user_id = ?`: `none` models
SQL NULL when the user has no rows. -/
def maxUserDate (user_id : String) (plans : List MealPlan) : Option Nat :=
  ((plans.filter (fun r => r.user_id == user_id)).map (fun r => r.date)).max?

/-- The "Mark as Favorite" handler (lines 235-241):
`UPDATE meal_plans SET is_favorite = 1 WHERE user_id = ? AND date =
(SELECT MAX(date) FROM meal_plans WHERE user_id = ?)`. -/
def markLatestFavorite (user_id : String) (s : Store) : Store :=
  { s with plans := s.plans.map (fun r =>
      if r.user_id == user_id && maxUserDate user_id s.plans == some r.date
      then { r with is_favorite := true } else r) }

/-- The "Delete" handler (lines 253-255):
`DELETE FROM meal_plans WHERE date = ?` — note: no `user_id` filter. -/
def deletePlan (t : Nat) (s : Store) : Store :=
  { s with plans := s.plans.filter (fun r => ¬ r.date = t) }

/-- The "Reset Database" handler (lines 165-168): deletes every row of
both tables. -/
def resetAll (_s : Store) : Store := ⟨[], []⟩

/-- Descending-timestamp order on readings (`ORDER BY date DESC`). -/
def readingDesc (a b : Reading) : Prop := b.date ≤ a.date

instance : DecidableRel readingDesc :=
  fun a b => inferInstanceAs (Decidable (b.date ≤ a.date))

instance : IsTotal Reading readingDesc :=
  ⟨fun a b => Nat.le_total b.date a.date⟩

instance : IsTrans Reading readingDesc :=
  ⟨fun _ _ _ hab hbc => Nat.le_trans hbc hab⟩

/-- Descending-timestamp order on plan records (`ORDER BY date DESC`). -/
def planDesc (a b : MealPlan) : Prop := b.date ≤ a.date

instance : DecidableRel planDesc :=
  fun a b => inferInstanceAs (Decidable (b.date ≤ a.date))

instance : IsTotal MealPlan planDesc :=
  ⟨fun a b => Nat.le_total b.date a.date⟩

instance : IsTrans MealPlan planDesc :=
  ⟨fun _ _ _ hab hbc => Nat.le_trans hbc hab⟩

/-- Function `get_blood_sugar_trends(user_id)` (lines 116-124): the user's rows,
ordered by date descending, limited to 7. -/
def get_blood_sugar_trends (user_id : String) (s : Store) : List Reading :=
  (List.insertionSort readingDesc
    (s.readings.filter (fun r => r.user_id == user_id))).take 7

/-- Function `get_saved_meal_plans(user_id)` (lines 126-133): all of the user's
rows, ordered by date descending. -/
def get_saved_meal_plans (user_id : String) (s : Store) : List MealPlan :=
  List.insertionSort planDesc (s.plans.filter (fun r => r.user_id == user_id))

/-! ## Session orchestrator (the generate button handler, lines 204-226) -/

/-- One write performed against the store, in order. -/
inductive WriteOp where
  | reading (r : Reading)
  | plan (r : MealPlan)
  deriving DecidableEq, Repr

/-- Outcome of one press of "Generate Personalized Meal Plan": the
resulting store, the writes in the order performed, the error messages
displayed, and the plan text surfaced to the user. -/
structure ActionResult where
  store : Store
  writes : List WriteOp
  errors : List String
  plan_text : Option String
  deriving DecidableEq, Repr

/-- The generate handler: `validate_inputs` gates the button
(`disabled = len(errors) > 0`, lines 204-218); when enabled and pressed,
`generate_meal_plan` runs and `if meal_plan:` (Python truthiness: not
`None` and not the empty string) guards `save_blood_sugar_data` followed
by `save_meal_plan` (lines 220-226).  `t1` is the wall clock read by
`save_blood_sugar_data`, `t2` the one read by `save_meal_plan`. -/
def generateAction (user_id : String)
    (fasting_sugar pre_meal_sugar post_meal_sugar : ℚ)
    (dietary_preferences : String) (response : ProviderResponse)
    (t1 t2 : Nat) (s : Store) : ActionResult :=
  let errors := validate_inputs fasting_sugar pre_meal_sugar post_meal_sugar
      dietary_preferences
  if errors = [] then
    match generate_meal_plan fasting_sugar pre_meal_sugar post_meal_sugar
        dietary_preferences response with
    | (some plan, _) =>
      if plan = "" then ⟨s, [], [], none⟩
      else
        let rec1 : Reading :=
          ⟨user_id, t1, fasting_sugar, pre_meal_sugar, post_meal_sugar⟩
        let rec2 : MealPlan := ⟨user_id, t2, plan, false⟩
        ⟨save_meal_plan user_id t2 plan false
            (save_blood_sugar_data user_id t1 fasting_sugar pre_meal_sugar
              post_meal_sugar s),
          [WriteOp.reading rec1, WriteOp.plan rec2], [], some plan⟩
    | (none, msgs) => ⟨s, [], msgs, none⟩
  else ⟨s, [], errors, none⟩

/-! ## Helper lemmas -/

lemma mem_generate_health_alerts (f p q : ℚ) (m : String) :
    m ∈ generate_health_alerts f p q ↔
      (m = fastingAlertMsg ∧ 126 < f) ∨ (m = preMealAlertMsg ∧ 130 < p) ∨
      (m = postMealAlertMsg ∧ 180 < q) := by
  unfold generate_health_alerts
  by_cases h1 : 126 < f <;> by_cases h2 : 130 < p <;> by_cases h3 : 180 < q <;>
    simp [h1, h2, h3]

lemma mem_validate_inputs (f p q : ℚ) (pref : String) (m : String) :
    m ∈ validate_inputs f p q pref ↔
      (m = fastingErrMsg ∧ ¬(50 ≤ f ∧ f ≤ 500)) ∨
      (m = preMealErrMsg ∧ ¬(70 ≤ p ∧ p ≤ 500)) ∨
      (m = postMealErrMsg ∧ ¬(70 ≤ q ∧ q ≤ 500)) ∨
      (m = dietaryErrMsg ∧ pref = "") := by
  unfold validate_inputs
  by_cases h1 : 50 ≤ f ∧ f ≤ 500 <;> by_cases h2 : 70 ≤ p ∧ p ≤ 500 <;>
    by_cases h3 : 70 ≤ q ∧ q ≤ 500 <;> by_cases h4 : pref = "" <;>
      simp [h1, h2, h3, h4]

lemma validate_inputs_eq_nil (f p q : ℚ) (pref : String) :
    validate_inputs f p q pref = [] ↔
      (50 ≤ f ∧ f ≤ 500) ∧ (70 ≤ p ∧ p ≤ 500) ∧ (70 ≤ q ∧ q ≤ 500) ∧
        ¬ pref = "" := by
  unfold validate_inputs
  by_cases h1 : 50 ≤ f ∧ f ≤ 500 <;> by_cases h2 : 70 ≤ p ∧ p ≤ 500 <;>
    by_cases h3 : 70 ≤ q ∧ q ≤ 500 <;> by_cases h4 : pref = "" <;>
      simp [h1, h2, h3, h4]

/-! ## Claims -/

/-- C1: `validate_inputs` returns the list of all violated rules at once
under the strict policy — an error for fasting outside [50,500], for
pre-meal outside [70,500], for post-meal outside [70,500], and for an
empty preference — it is empty exactly when all four rules hold, and when
any rule is violated the generate action performs zero writes and leaves
the store unchanged. -/
theorem validate_inputs_complete (f p q : ℚ) (pref : String) :
    (fastingErrMsg ∈ validate_inputs f p q pref ↔ ¬(50 ≤ f ∧ f ≤ 500)) ∧
    (preMealErrMsg ∈ validate_inputs f p q pref ↔ ¬(70 ≤ p ∧ p ≤ 500)) ∧
    (postMealErrMsg ∈ validate_inputs f p q pref ↔ ¬(70 ≤ q ∧ q ≤ 500)) ∧
    (dietaryErrMsg ∈ validate_inputs f p q pref ↔ pref = "") ∧
    (validate_inputs f p q pref = [] ↔
      (50 ≤ f ∧ f ≤ 500) ∧ (70 ≤ p ∧ p ≤ 500) ∧ (70 ≤ q ∧ q ≤ 500) ∧
        ¬ pref = "") ∧
    (∀ (uid : String) (resp : ProviderResponse) (t1 t2 : Nat) (s : Store),
      ¬ validate_inputs f p q pref = [] →
        (generateAction uid f p q pref resp t1 t2 s).store = s ∧
        (generateAction uid f p q pref resp t1 t2 s).writes = []) := by
  have dfp : fastingErrMsg ≠ preMealErrMsg := by decide
  have dfq : fastingErrMsg ≠ postMealErrMsg := by decide
  have dfd : fastingErrMsg ≠ dietaryErrMsg := by decide
  have dpq : preMealErrMsg ≠ postMealErrMsg := by decide
  have dpd : preMealErrMsg ≠ dietaryErrMsg := by decide
  have dqd : postMealErrMsg ≠ dietaryErrMsg := by decide
  refine ⟨?_, ?_, ?_, ?_, validate_inputs_eq_nil f p q pref, ?_⟩
  · rw [mem_validate_inputs]; simp [dfp, dfq, dfd]
  · rw [mem_validate_inputs]; simp [dfp.symm, dpq, dpd]
  · rw [mem_validate_inputs]; simp [dfq.symm, dpq.symm, dqd]
  · rw [mem_validate_inputs]; simp [dfd.symm, dpd.symm, dqd.symm]
  · intro uid resp t1 t2 s h
    constructor <;> simp [generateAction, h]

/-- C1 witness: at fasting 0 (outside the band) validation fails and the
generate action leaves the empty store unchanged. -/
theorem validate_inputs_complete_witness :
    ¬ validate_inputs 0 100 100 "Vegetarian" = [] ∧
    (generateAction "u" 0 100 100 "Vegetarian" (Except.ok "plan") 1 2
        emptyStore).store = emptyStore :=
  ⟨by decide,
    ((validate_inputs_complete 0 100 100 "Vegetarian").2.2.2.2.2 "u"
        (Except.ok "plan") 1 2 emptyStore (by decide)).1⟩

/-- C2: `generate_health_alerts` emits the fasting alert iff fasting >
126, the pre-meal alert iff pre-meal > 130, the post-meal alert iff
post-meal > 180, each independently; fasting = 130 yields the fasting
alert and fasting = 126 yields none; between zero and three alerts fire. -/
theorem generate_health_alerts_correct (f p q : ℚ) :
    (fastingAlertMsg ∈ generate_health_alerts f p q ↔ 126 < f) ∧
    (preMealAlertMsg ∈ generate_health_alerts f p q ↔ 130 < p) ∧
    (postMealAlertMsg ∈ generate_health_alerts f p q ↔ 180 < q) ∧
    fastingAlertMsg ∈ generate_health_alerts 130 p q ∧
    fastingAlertMsg ∉ generate_health_alerts 126 p q ∧
    (generate_health_alerts f p q).length ≤ 3 ∧
    generate_health_alerts 90 110 140 = [] ∧
    generate_health_alerts 140 150 190 =
      [fastingAlertMsg, preMealAlertMsg, postMealAlertMsg] := by
  have d1 : fastingAlertMsg ≠ preMealAlertMsg := by decide
  have d2 : fastingAlertMsg ≠ postMealAlertMsg := by decide
  have d3 : preMealAlertMsg ≠ postMealAlertMsg := by decide
  refine ⟨?_, ?_, ?_, ?_, ?_, ?_, by decide, by decide⟩
  · rw [mem_generate_health_alerts]; simp [d1, d2]
  · rw [mem_generate_health_alerts]; simp [d1.symm, d3]
  · rw [mem_generate_health_alerts]; simp [d2.symm, d3.symm]
  · rw [mem_generate_health_alerts]
    exact Or.inl ⟨rfl, by norm_num⟩
  · rw [mem_generate_health_alerts]
    norm_num [d1, d2]
  · unfold generate_health_alerts
    by_cases h1 : 126 < f <;> by_cases h2 : 130 < p <;> by_cases h3 : 180 < q <;>
      simp [h1, h2, h3]

/-- C3: on any failure of the generation call, `generate_meal_plan`
returns `None` together with a non-empty displayed message that carries
the provider's message, and the generate action persists nothing: the
store is unchanged and the write trace is empty. -/
theorem generate_meal_plan_failure (f p q : ℚ) (pref e uid : String)
    (t1 t2 : Nat) (s : Store) :
    (generate_meal_plan f p q pref (Except.error e)).1 = none ∧
    (generate_meal_plan f p q pref (Except.error e)).2 =
      ["Error generating meal plan: " ++ e] ∧
    0 < ("Error generating meal plan: " ++ e).length ∧
    (generateAction uid f p q pref (Except.error e) t1 t2 s).store = s ∧
    (generateAction uid f p q pref (Except.error e) t1 t2 s).writes = [] := by
  refine ⟨rfl, rfl, ?_, ?_, ?_⟩
  · rw [String.length_append]
    have h0 : 0 < ("Error generating meal plan: " : String).length := by decide
    omega
  · by_cases h : validate_inputs f p q pref = [] <;>
      simp [generateAction, h, generate_meal_plan]
  · by_cases h : validate_inputs f p q pref = [] <;>
      simp [generateAction, h, generate_meal_plan]

/-- C4 counterexample: a successful generation call whose returned text is
the empty string (`Except.ok ""`) persists nothing — Python's `if
meal_plan:` treats the empty string as false — contradicting the claim
that every successful generation persists exactly one reading and one
plan. -/
theorem generateAction_empty_plan_no_persist :
    (generateAction "u" 90 110 140 "Vegetarian" (Except.ok "") 1 2
        emptyStore).store = emptyStore ∧
    (generateAction "u" 90 110 140 "Vegetarian" (Except.ok "") 1 2
        emptyStore).writes = [] ∧
    ¬ (generateAction "u" 90 110 140 "Vegetarian" (Except.ok "") 1 2
        emptyStore).store.plans.length = 1 := by decide

/-- C4 amended: for every successful generation returning a non-empty
plan text on validated inputs, exactly one reading row and one plan row
are appended, the reading write precedes the plan write, and the
snapshot's timestamp is ≤ the plan record's timestamp whenever the wall
clock did not go backwards between the two inserts. -/
theorem generateAction_success_persists (uid : String) (f p q : ℚ)
    (pref plan : String) (t1 t2 : Nat) (s : Store)
    (hv : validate_inputs f p q pref = []) (hp : ¬ plan = "")
    (ht : t1 ≤ t2) :
    (generateAction uid f p q pref (Except.ok plan) t1 t2 s).store.readings =
      s.readings ++ [⟨uid, t1, f, p, q⟩] ∧
    (generateAction uid f p q pref (Except.ok plan) t1 t2 s).store.plans =
      s.plans ++ [⟨uid, t2, plan, false⟩] ∧
    (generateAction uid f p q pref (Except.ok plan) t1 t2 s).writes =
      [WriteOp.reading ⟨uid, t1, f, p, q⟩, WriteOp.plan ⟨uid, t2, plan, false⟩] ∧
    t1 ≤ t2 := by
  refine ⟨?_, ?_, ?_, ht⟩ <;>
    simp [generateAction, hv, hp, generate_meal_plan, save_blood_sugar_data,
      save_meal_plan]

/-- C4 witness: a concrete successful generation on valid inputs writes
the reading first and the plan second. -/
theorem generateAction_success_persists_witness :
    validate_inputs 90 110 140 "Vegetarian" = [] ∧
    (generateAction "u" 90 110 140 "Vegetarian" (Except.ok "Plan A") 1 2
        emptyStore).writes =
      [WriteOp.reading ⟨"u", 1, 90, 110, 140⟩,
        WriteOp.plan ⟨"u", 2, "Plan A", false⟩] :=
  ⟨by decide,
    (generateAction_success_persists "u" 90 110 140 "Vegetarian" "Plan A" 1 2
        emptyStore (by decide) (by decide) (by decide)).2.2.1⟩

/-- C9: prompt building is deterministic — equal inputs give an identical
request payload — and the payload's system role, model hint, temperature
and token limit are the fixed constants of the source. -/
theorem build_deterministic (f1 p1 q1 : ℚ) (d1 : String) (f2 p2 q2 : ℚ)
    (d2 : String) (hf : f1 = f2) (hp : p1 = p2) (hq : q1 = q2)
    (hd : d1 = d2) :
    build f1 p1 q1 d1 = build f2 p2 q2 d2 ∧
    (build f1 p1 q1 d1).system_role =
      "Expert dietitian specializing in diabetes management" ∧
    (build f1 p1 q1 d1).model_hint = "llama3-8b-8192" ∧
    (build f1 p1 q1 d1).temperature = 3 / 10 ∧
    (build f1 p1 q1 d1).max_tokens = 1500 := by
  subst hf; subst hp; subst hq; subst hd
  exact ⟨rfl, rfl, rfl, rfl, rfl⟩

/-- C9 witness: determinism and the constant payload fields at a concrete
input. -/
theorem build_deterministic_witness :
    build 90 110 140 "Vegetarian" = build 90 110 140 "Vegetarian" ∧
    (build 90 110 140 "Vegetarian").system_role =
      "Expert dietitian specializing in diabetes management" ∧
    (build 90 110 140 "Vegetarian").model_hint = "llama3-8b-8192" ∧
    (build 90 110 140 "Vegetarian").temperature = 3 / 10 ∧
    (build 90 110 140 "Vegetarian").max_tokens = 1500 :=
  build_deterministic 90 110 140 "Vegetarian" 90 110 140 "Vegetarian"
    rfl rfl rfl rfl

lemma markLatestFavorite_plans_length (uid : String) (s : Store) :
    (markLatestFavorite uid s).plans.length = s.plans.length := by
  simp [markLatestFavorite]

/-- C5 counterexample: with two plans of the same user sharing the
maximum timestamp, the favorite UPDATE (keyed on `date = MAX(date)`)
sets `is_favorite` on more than one record, contradicting "on no other
record". -/
theorem markLatestFavorite_tie_not_unique :
    1 < ((markLatestFavorite "u"
        (⟨[], [⟨"u", 5, "P1", false⟩, ⟨"u", 5, "P2", false⟩]⟩ : Store)).plans.filter
          (fun r => r.is_favorite)).length := by decide

/-- C5 amended: `markLatestFavorite` sets `is_favorite` on every record
of the user whose timestamp equals the user's maximum timestamp (so on
exactly one record when that maximum is attained only once), and leaves
the flag of every other record as it was; in particular after inserting
P1 at t=1 and P2 at t=2 for the same user, only P2 becomes favorite. -/
theorem markLatestFavorite_sets_max (uid : String) (s : Store) :
    (∀ (i : Nat) (h : i < s.plans.length),
      ((markLatestFavorite uid s).plans.get
          ⟨i, by rw [markLatestFavorite_plans_length]; exact h⟩).is_favorite =
        ((s.plans.get ⟨i, h⟩).is_favorite ||
          ((s.plans.get ⟨i, h⟩).user_id == uid &&
            maxUserDate uid s.plans == some (s.plans.get ⟨i, h⟩).date))) ∧
    (markLatestFavorite "u"
        (save_meal_plan "u" 2 "P2" false
          (save_meal_plan "u" 1 "P1" false emptyStore))).plans =
      [⟨"u", 1, "P1", false⟩, ⟨"u", 2, "P2", true⟩] := by
  constructor
  · intro i h
    simp only [markLatestFavorite, List.get_eq_getElem, List.getElem_map]
    by_cases hc : ((s.plans[i]).user_id == uid &&
        maxUserDate uid s.plans == some (s.plans[i]).date) = true
    · simp [hc]
    · rw [Bool.not_eq_true] at hc
      simp [hc]
  · decide

/-- C5 witness: a single stored plan of the user carries the maximum
timestamp, so the update sets its flag according to the stated formula. -/
theorem markLatestFavorite_sets_max_witness :
    ((markLatestFavorite "u" (⟨[], [⟨"u", 3, "P", false⟩]⟩ : Store)).plans.get
        ⟨0, by decide⟩).is_favorite =
      (((⟨[], [⟨"u", 3, "P", false⟩]⟩ : Store).plans.get
          ⟨0, by decide⟩).is_favorite ||
        (((⟨[], [⟨"u", 3, "P", false⟩]⟩ : Store).plans.get
            ⟨0, by decide⟩).user_id == "u" &&
          maxUserDate "u" (⟨[], [⟨"u", 3, "P", false⟩]⟩ : Store).plans ==
            some ((⟨[], [⟨"u", 3, "P", false⟩]⟩ : Store).plans.get
              ⟨0, by decide⟩).date)) :=
  (markLatestFavorite_sets_max "u" (⟨[], [⟨"u", 3, "P", false⟩]⟩ : Store)).1 0
    (by decide)

lemma length_filter_date (t : Nat) (l : List MealPlan) :
    (l.filter (fun r => ¬ r.date = t)).length +
      (l.filter (fun r => r.date = t)).length = l.length := by
  induction l with
  | nil => rfl
  | cons a l ih =>
    simp only [decide_not] at ih ⊢
    by_cases h : a.date = t <;> simp [List.filter_cons, h] <;> omega

/-- C6 counterexample: the delete statement filters on `date` only, so
deleting by the timestamp of user A's record also removes user B's record
that happens to share the timestamp — contradicting "leaving all other
plan records (including those of other users) unchanged". -/
theorem deletePlan_removes_other_user :
    (⟨"B", 5, "pB", false⟩ : MealPlan) ∈
      (⟨[], [⟨"A", 5, "pA", false⟩, ⟨"B", 5, "pB", false⟩]⟩ : Store).plans ∧
    (⟨"B", 5, "pB", false⟩ : MealPlan) ∉
      (deletePlan 5
        (⟨[], [⟨"A", 5, "pA", false⟩, ⟨"B", 5, "pB", false⟩]⟩ : Store)).plans := by
  decide

/-- C6 amended: `deletePlan t` removes exactly the plan records whose
timestamp equals `t` — across all users — and leaves every other plan
record and the readings table unchanged; in particular it removes exactly
one record when exactly one record carries that timestamp. -/
theorem deletePlan_by_date (t : Nat) (s : Store) :
    (deletePlan t s).readings = s.readings ∧
    (∀ r : MealPlan, r ∈ (deletePlan t s).plans ↔
      r ∈ s.plans ∧ ¬ r.date = t) ∧
    (deletePlan t s).plans.length +
      (s.plans.filter (fun r => r.date = t)).length = s.plans.length := by
  refine ⟨rfl, ?_, length_filter_date t s.plans⟩
  intro r
  simp [deletePlan, List.mem_filter]

/-- C7: resetting the database empties both tables, and afterwards the
trends query and the saved-plans query return the empty sequence for
every user. -/
theorem resetAll_clears (s : Store) (uid : String) :
    (resetAll s).readings = [] ∧ (resetAll s).plans = [] ∧
    get_blood_sugar_trends uid (resetAll s) = [] ∧
    get_saved_meal_plans uid (resetAll s) = [] :=
  ⟨rfl, rfl, rfl, rfl⟩

/-- C8: the trends query returns at most 7 rows, all belonging to the
user, in descending timestamp order; the saved-plans query returns a
permutation of exactly the user's plan rows, in descending timestamp
order. -/
theorem queries_ordered (uid : String) (s : Store) :
    (get_blood_sugar_trends uid s).length ≤ 7 ∧
    (∀ r ∈ get_blood_sugar_trends uid s, r.user_id = uid) ∧
    List.Sorted readingDesc (get_blood_sugar_trends uid s) ∧
    List.Perm (get_saved_meal_plans uid s)
      (s.plans.filter (fun r => r.user_id == uid)) ∧
    (∀ r : MealPlan, r ∈ get_saved_meal_plans uid s ↔
      r ∈ s.plans ∧ r.user_id = uid) ∧
    List.Sorted planDesc (get_saved_meal_plans uid s) := by
  refine ⟨?_, ?_, ?_, ?_, ?_, ?_⟩
  · exact List.length_take_le 7 _
  · intro r hr
    unfold get_blood_sugar_trends at hr
    have h1 := List.take_subset 7 _ hr
    rw [List.mem_insertionSort] at h1
    simp only [List.mem_filter, beq_iff_eq] at h1
    exact h1.2
  · exact List.Pairwise.sublist (List.take_sublist _ _)
      (List.sorted_insertionSort readingDesc _)
  · exact List.perm_insertionSort planDesc _
  · intro r
    simp [get_saved_meal_plans, List.mem_filter]
  · exact List.sorted_insertionSort planDesc _

/-- C8 witness: at a concrete one-row store, the membership part of the
query specification applies to the stored reading. -/
theorem queries_ordered_witness :
    (⟨"u", 1, 90, 110, 140⟩ : Reading).user_id = "u" :=
  (queries_ordered "u" (⟨[⟨"u", 1, 90, 110, 140⟩], []⟩ : Store)).2.1
    ⟨"u", 1, 90, 110, 140⟩ (by decide)

/-- C10: the favorite update modifies only the `is_favorite` field —
every plan row keeps its user, timestamp and text, rows of other users
keep their favorite flag, and the readings table is untouched. -/
theorem markLatestFavorite_frame (uid : String) (s : Store) :
    (markLatestFavorite uid s).readings = s.readings ∧
    (markLatestFavorite uid s).plans.length = s.plans.length ∧
    ∀ (i : Nat) (h : i < s.plans.length),
      ((markLatestFavorite uid s).plans.get
          ⟨i, by rw [markLatestFavorite_plans_length]; exact h⟩).user_id =
        (s.plans.get ⟨i, h⟩).user_id ∧
      ((markLatestFavorite uid s).plans.get
          ⟨i, by rw [markLatestFavorite_plans_length]; exact h⟩).date =
        (s.plans.get ⟨i, h⟩).date ∧
      ((markLatestFavorite uid s).plans.get
          ⟨i, by rw [markLatestFavorite_plans_length]; exact h⟩).meal_plan =
        (s.plans.get ⟨i, h⟩).meal_plan ∧
      (¬ (s.plans.get ⟨i, h⟩).user_id = uid →
        ((markLatestFavorite uid s).plans.get
            ⟨i, by rw [markLatestFavorite_plans_length]; exact h⟩).is_favorite =
          (s.plans.get ⟨i, h⟩).is_favorite) := by
  refine ⟨rfl, markLatestFavorite_plans_length uid s, ?_⟩
  intro i h
  simp only [markLatestFavorite, List.get_eq_getElem, List.getElem_map]
  by_cases hc : ((s.plans[i]).user_id == uid &&
      maxUserDate uid s.plans == some (s.plans[i]).date) = true
  · refine ⟨by simp [hc], by simp [hc], by simp [hc], ?_⟩
    intro hne
    rw [Bool.and_eq_true] at hc
    exact absurd (beq_iff_eq.mp hc.1) hne
  · rw [Bool.not_eq_true] at hc
    simp [hc]

/-- C10 witness: a plan row of a different user keeps its favorite flag
when the update runs for user "u". -/
theorem markLatestFavorite_frame_witness :
    ((markLatestFavorite "u" (⟨[], [⟨"v", 4, "Q", false⟩]⟩ : Store)).plans.get
        ⟨0, by decide⟩).is_favorite =
      ((⟨[], [⟨"v", 4, "Q", false⟩]⟩ : Store).plans.get
        ⟨0, by decide⟩).is_favorite :=
  ((markLatestFavorite_frame "u" (⟨[], [⟨"v", 4, "Q", false⟩]⟩ : Store)).2.2 0
      (by decide)).2.2.2 (by decide)

/-- C2 witness: normal readings (90, 110, 140) raise no alert. -/
theorem generate_health_alerts_correct_witness :
    generate_health_alerts 90 110 140 = [] :=
  (generate_health_alerts_correct 0 0 0).2.2.2.2.2.2.1

/-- C3 witness: a concrete provider exception yields a `None` plan. -/
theorem generate_meal_plan_failure_witness :
    (generate_meal_plan 90 110 140 "Vegetarian"
      (Except.error "quota exceeded")).1 = none :=
  (generate_meal_plan_failure 90 110 140 "Vegetarian" "quota exceeded" "u" 1 2
    emptyStore).1

/-- C6 witness: deleting by the timestamp of the only matching record
removes exactly one of two stored records. -/
theorem deletePlan_by_date_witness :
    (deletePlan 5
        (⟨[], [⟨"A", 5, "pA", false⟩, ⟨"A", 6, "pA2", false⟩]⟩ : Store)).plans.length +
      ((⟨[], [⟨"A", 5, "pA", false⟩, ⟨"A", 6, "pA2", false⟩]⟩ : Store).plans.filter
        (fun r => r.date = 5)).length =
      (⟨[], [⟨"A", 5, "pA", false⟩, ⟨"A", 6, "pA2", false⟩]⟩ : Store).plans.length :=
  (deletePlan_by_date 5
    (⟨[], [⟨"A", 5, "pA", false⟩, ⟨"A", 6, "pA2", false⟩]⟩ : Store)).2.2

/-- C7 witness: after a reset of a populated store the saved-plans query
returns the empty sequence. -/
theorem resetAll_clears_witness :
    get_saved_meal_plans "u"
      (resetAll (⟨[⟨"u", 1, 90, 110, 140⟩], [⟨"u", 2, "P", true⟩]⟩ : Store)) = [] :=
  (resetAll_clears (⟨[⟨"u", 1, 90, 110, 140⟩], [⟨"u", 2, "P", true⟩]⟩ : Store)
    "u").2.2.2

end GlucoGuide
